import Mathlib

/-!
Verification of the SpaceEngineersLift performance model and advisory scorer.

The Python sources (src/models.py, src/ai_assistant.py, src/utils.py) are
shallowly embedded below.  Thruster counts are natural numbers (the data
model's non-negativity invariant); masses, gravities and thrusts are exact
rationals standing for the Python floats.  A Python expression that can raise
`ZeroDivisionError` or `KeyError` is embedded as an `Option`/`Except` value
whose `none`/`error` arm is exactly the raising condition; everything else is
a total function.
-/

/-- The three propulsion types, i.e. the three string keys of the
`THRUSTER_SPECS` dictionary in src/models.py. -/
inductive ThrustType
  | atmospheric
  | ion
  | hydrogen
deriving DecidableEq, Repr

/-- One row of the `THRUSTER_SPECS` table: force in newtons per small and
per large thruster. -/
structure SizeSpecs where
  small : ℕ
  large : ℕ
deriving DecidableEq, Repr

/-- The static thruster force table of src/models.py (newtons). -/
def THRUSTER_SPECS : ThrustType → SizeSpecs
  | .atmospheric => ⟨82000, 408000⟩
  | .ion => ⟨14400, 172800⟩
  | .hydrogen => ⟨98400, 478800⟩

/-- `ThrusterCount` dataclass of src/models.py: counts of one propulsion type
at the two size classes (non-negative per the data model). -/
structure ThrusterCount where
  small : ℕ
  large : ℕ
deriving DecidableEq, Repr

/-- `ThrusterCount.calculate_thrust`: `small * specs['small'] + large * specs['large']`. -/
def ThrusterCount.calculate_thrust (c : ThrusterCount) (t : ThrustType) : ℚ :=
  (c.small : ℚ) * (THRUSTER_SPECS t).small + (c.large : ℚ) * (THRUSTER_SPECS t).large

/-- `GridSpecifications` dataclass of src/models.py, after `__post_init__`
has run: the three thruster fields are always present. -/
structure GridSpecifications where
  mass : ℚ
  gravity : ℚ
  atmospheric_thrusters : ThrusterCount
  ion_thrusters : ThrusterCount
  hydrogen_thrusters : ThrusterCount
deriving DecidableEq, Repr

/-- The dataclass constructor together with `__post_init__` (src/models.py
lines 40-51): `gravity` defaults to 9.81, and each thruster field that is
omitted or `None` is replaced by `ThrusterCount()` i.e. `{small:0, large:0}`
(a present `ThrusterCount` instance is always truthy, so `x or ThrusterCount()`
keeps it). -/
def GridSpecifications.make (mass : ℚ) (gravity : ℚ := 981/100)
    (atmospheric_thrusters : Option ThrusterCount := none)
    (ion_thrusters : Option ThrusterCount := none)
    (hydrogen_thrusters : Option ThrusterCount := none) : GridSpecifications :=
  { mass := mass
    gravity := gravity
    atmospheric_thrusters := atmospheric_thrusters.getD ⟨0, 0⟩
    ion_thrusters := ion_thrusters.getD ⟨0, 0⟩
    hydrogen_thrusters := hydrogen_thrusters.getD ⟨0, 0⟩ }

/-- The dictionary returned by `calculate_thrust_by_type` (keys in insertion
order: atmospheric, ion, hydrogen). -/
structure ThrustByType where
  atmospheric : ℚ
  ion : ℚ
  hydrogen : ℚ
deriving DecidableEq, Repr

/-- `GridSpecifications.calculate_thrust_by_type` of src/models.py. -/
def GridSpecifications.calculate_thrust_by_type (s : GridSpecifications) : ThrustByType :=
  { atmospheric := s.atmospheric_thrusters.calculate_thrust .atmospheric
    ion := s.ion_thrusters.calculate_thrust .ion
    hydrogen := s.hydrogen_thrusters.calculate_thrust .hydrogen }

/-- `GridSpecifications.calculate_total_thrust`: `sum(thrusts.values())`,
summed in the dictionary's insertion order. -/
def GridSpecifications.calculate_total_thrust (s : GridSpecifications) : ℚ :=
  (s.calculate_thrust_by_type).atmospheric + (s.calculate_thrust_by_type).ion
    + (s.calculate_thrust_by_type).hydrogen

/-- `GridSpecifications.calculate_lift_capacity`:
`(total_thrust - mass*gravity) / gravity`.  Python raises `ZeroDivisionError`
exactly when `gravity == 0`; that raise is the `none` arm. -/
def GridSpecifications.calculate_lift_capacity (s : GridSpecifications) : Option ℚ :=
  if s.gravity = 0 then none
  else some ((s.calculate_total_thrust - s.mass * s.gravity) / s.gravity)

/-- The thrust-to-weight expression of src/ai_assistant.py line 26 (and
line 141): `total_thrust / (specs.mass * specs.gravity) if specs.mass > 0
else 0`.  When `mass > 0` Python raises `ZeroDivisionError` exactly when
`mass * gravity == 0`. -/
def analyze_grid_twr (s : GridSpecifications) : Option ℚ :=
  if 0 < s.mass then
    if s.mass * s.gravity = 0 then none
    else some (s.calculate_total_thrust / (s.mass * s.gravity))
  else some 0

/-- The thrust-to-weight expression of src/utils.py line 157 (CSV export):
`total_thrust / (specs.mass * specs.gravity)` with no guard, so Python raises
`ZeroDivisionError` exactly when `mass * gravity == 0`. -/
def export_csv_twr (s : GridSpecifications) : Option ℚ :=
  if s.mass * s.gravity = 0 then none
  else some (s.calculate_total_thrust / (s.mass * s.gravity))

/-- `ThrusterAIAssistant._calculate_efficiency_score` of src/ai_assistant.py
(lines 111-132).  Returns 0 when total thrust or mass is 0; otherwise divides
by `mass * gravity` (raising, i.e. `none`, when that product is 0), clamps
`twr * 20` into [0,100], subtracts the distribution penalty and clamps the
result into [0,100].  The `else 100` arm of the penalty is the source's dead
branch, kept as written. -/
def calculate_efficiency_score (s : GridSpecifications) : Option ℚ :=
  let total_thrust := s.calculate_total_thrust
  if total_thrust = 0 ∨ s.mass = 0 then some 0
  else if s.mass * s.gravity = 0 then none
  else
    let twr := total_thrust / (s.mass * s.gravity)
    let base_score := min 100 (max 0 (twr * 20))
    let thrusts := s.calculate_thrust_by_type
    let ideal_thrust := total_thrust / 3
    let distribution_penalty :=
      if 0 < total_thrust then
        (|thrusts.atmospheric - ideal_thrust| + |thrusts.ion - ideal_thrust|
          + |thrusts.hydrogen - ideal_thrust|) / total_thrust * 20
      else 100
    some (max 0 (min 100 (base_score - distribution_penalty)))

/-- `ThrusterAIAssistant._analyze_thrust_balance` of src/ai_assistant.py
(lines 98-109), taking the three distribution percentages in the dictionary's
key order. -/
def analyze_thrust_balance (atmospheric ion hydrogen : ℚ) : String :=
  if atmospheric = 0 ∧ ion = 0 ∧ hydrogen = 0 then "No thrusters configured"
  else if atmospheric > 60 then
    "Heavy atmospheric focus - consider diversifying for space operations"
  else if ion > 60 then "Heavy ion focus - may struggle in atmosphere"
  else if hydrogen > 60 then "Heavy hydrogen focus - check fuel efficiency"
  else "Balanced thrust distribution"

/-- `ThrusterAIAssistant._generate_suggested_changes` of src/ai_assistant.py
(lines 134-161).  The twr expression is the same guarded division as in
`analyze_grid`; its `ZeroDivisionError` propagates (the `none` arm). -/
def generate_suggested_changes (s : GridSpecifications) : Option (List String) :=
  let total_thrust := s.calculate_total_thrust
  if total_thrust = 0 then some ["Add thrusters to begin analysis"]
  else
    match analyze_grid_twr s with
    | none => none
    | some twr =>
      let twr_msgs : List String :=
        if twr = 0 then ["Add mass and thrusters to calculate thrust-to-weight ratio"]
        else if twr < 3/2 then ["Add more thrusters to improve lift capacity"]
        else if twr > 4 then ["Consider reducing thrust for better efficiency"]
        else []
      let thrusts := s.calculate_thrust_by_type
      let atmo_msgs : List String :=
        if 0 < s.mass ∧ thrusts.atmospheric < s.mass * s.gravity then
          ["Increase atmospheric thrusters for better planet performance"]
        else []
      let space_msgs : List String :=
        if 0 < s.mass ∧ thrusts.ion + thrusts.hydrogen < s.mass * s.gravity then
          ["Increase ion/hydrogen thrusters for space operations"]
        else []
      some (twr_msgs ++ atmo_msgs ++ space_msgs)

/-- The three-field result dictionary of `ThrusterAIAssistant.analyze_grid`. -/
structure AnalysisResult where
  efficiency : String
  optimization : String
  use_cases : String
deriving DecidableEq, Repr

/-- `ThrusterAIAssistant.analyze_grid` of src/ai_assistant.py (lines 21-69).
`callResult` is the opaque external text-completion call (`Except` error =
the exception the try/except catches).  Before the try block the function
computes `calculate_lift_capacity` and the twr expression; a
`ZeroDivisionError` there escapes the function (the `.error` arm).  On a
caught failure every field is a placeholder embedding the error text; on
success the response is split on blank lines and the first three segments
are mapped positionally, with fixed placeholders for missing segments. -/
def analyze_grid (s : GridSpecifications) (callResult : Except String String) :
    Except String AnalysisResult :=
  match s.calculate_lift_capacity with
  | none => .error "ZeroDivisionError: float division by zero"
  | some _ =>
    match analyze_grid_twr s with
    | none => .error "ZeroDivisionError: float division by zero"
    | some _ =>
      match callResult with
      | .error e =>
        .ok { efficiency := "Error analyzing efficiency: " ++ e
              optimization := "Analysis unavailable"
              use_cases := "Analysis unavailable" }
      | .ok analysis =>
        let sections := analysis.splitOn "\n\n"
        .ok { efficiency := sections.getD 0 "Analysis unavailable"
              optimization := sections.getD 1 "No optimization suggestions"
              use_cases := sections.getD 2 "No use case analysis" }

/-- JSON values as produced/consumed by `to_dict`/`from_dict` and
`json.dumps`/`json.loads` in src/models.py (only the shapes those functions
use: numbers, strings and objects). -/
inductive Json
  | num : ℚ → Json
  | str : String → Json
  | obj : List (String × Json) → Json

/-- Dictionary key lookup (`data['key']`); `none` is Python's `KeyError` or a
non-dict value. -/
def Json.get : Json → String → Option Json
  | .obj fields, key => fields.lookup key
  | _, _ => none

/-- Reads an integer thruster count out of a JSON value. -/
def Json.asCount : Json → Option ℕ
  | .num q => if q.den = 1 ∧ 0 ≤ q.num then some q.num.toNat else none
  | _ => none

/-- Reads a numeric (mass/gravity) field out of a JSON value. -/
def Json.asRat : Json → Option ℚ
  | .num q => some q
  | _ => none

/-- `ThrusterCount.to_dict` of src/models.py. -/
def ThrusterCount.to_dict (c : ThrusterCount) : Json :=
  .obj [("small", .num c.small), ("large", .num c.large)]

/-- `ThrusterCount.from_dict`: `cls(**data)`.  A key missing from the dict
falls back to the dataclass field default 0. -/
def ThrusterCount.from_dict (j : Json) : Option ThrusterCount := do
  let small ← ((j.get "small").getD (.num 0)).asCount
  let large ← ((j.get "large").getD (.num 0)).asCount
  pure ⟨small, large⟩

/-- `GridSpecifications.to_dict` of src/models.py. -/
def GridSpecifications.to_dict (s : GridSpecifications) : Json :=
  .obj [("mass", .num s.mass), ("gravity", .num s.gravity),
    ("atmospheric_thrusters", s.atmospheric_thrusters.to_dict),
    ("ion_thrusters", s.ion_thrusters.to_dict),
    ("hydrogen_thrusters", s.hydrogen_thrusters.to_dict)]

/-- `GridSpecifications.from_dict` of src/models.py (lines 68-83): replaces
the three thruster entries by `ThrusterCount.from_dict` of the corresponding
dict (a missing key raises `KeyError`, the `none` arm) and calls
`cls(**specs_data)`; `mass` is required, `gravity` falls back to the
dataclass default 9.81, and `__post_init__` keeps the already-present
thruster values. -/
def GridSpecifications.from_dict (j : Json) : Option GridSpecifications := do
  let mass ← (← j.get "mass").asRat
  let gravity ← ((j.get "gravity").getD (.num (981/100))).asRat
  let atmospheric ← (← j.get "atmospheric_thrusters") |> ThrusterCount.from_dict
  let ion ← (← j.get "ion_thrusters") |> ThrusterCount.from_dict
  let hydrogen ← (← j.get "hydrogen_thrusters") |> ThrusterCount.from_dict
  pure ⟨mass, gravity, atmospheric, ion, hydrogen⟩

/-- `Preset` dataclass of src/models.py. -/
structure Preset where
  name : String
  specifications : GridSpecifications
deriving DecidableEq, Repr

/-- `Preset.save`: the JSON object `json.dumps` serializes
(`{'name': ..., 'specifications': ...to_dict()}`). -/
def Preset.save (p : Preset) : Json :=
  .obj [("name", .str p.name), ("specifications", p.specifications.to_dict)]

/-- Reads a string field out of a JSON value. -/
def Json.asStr : Json → Option String
  | .str s => some s
  | _ => none

/-- `Preset.load` of src/models.py (lines 90-102), on the JSON value
`json.loads` produces. -/
def Preset.load (j : Json) : Option Preset := do
  let name ← (← j.get "name").asStr
  let specifications ← (← j.get "specifications") |> GridSpecifications.from_dict
  pure ⟨name, specifications⟩

/-! ### Helper lemmas and sample configurations -/

/-- Per-type thrust is non-negative: counts are non-negative integers and the
force table entries are positive. -/
lemma ThrusterCount.calculate_thrust_nonneg (c : ThrusterCount) (t : ThrustType) :
    0 ≤ c.calculate_thrust t := by
  unfold ThrusterCount.calculate_thrust
  positivity

/-- Total thrust is non-negative. -/
lemma GridSpecifications.calculate_total_thrust_nonneg (s : GridSpecifications) :
    0 ≤ s.calculate_total_thrust := by
  have h1 := s.atmospheric_thrusters.calculate_thrust_nonneg .atmospheric
  have h2 := s.ion_thrusters.calculate_thrust_nonneg .ion
  have h3 := s.hydrogen_thrusters.calculate_thrust_nonneg .hydrogen
  unfold GridSpecifications.calculate_total_thrust GridSpecifications.calculate_thrust_by_type
  dsimp only
  linarith

/-- The spec scenario grid: mass 1000 kg, gravity 9.81, two small atmospheric
thrusters, no ion or hydrogen thrusters. -/
def sampleGrid : GridSpecifications := ⟨1000, 981/100, ⟨2, 0⟩, ⟨0, 0⟩, ⟨0, 0⟩⟩

/-- Degenerate grid: mass 0, gravity 9.81, no thrusters at all. -/
def allZeroGrid : GridSpecifications := ⟨0, 981/100, ⟨0, 0⟩, ⟨0, 0⟩, ⟨0, 0⟩⟩

/-- A grid with zero gravity and no thrusters. -/
def zeroGravityGrid : GridSpecifications := ⟨1000, 0, ⟨0, 0⟩, ⟨0, 0⟩, ⟨0, 0⟩⟩

/-- A grid with positive mass and thrust but zero gravity. -/
def zeroGravityThrustGrid : GridSpecifications := ⟨1, 0, ⟨1, 0⟩, ⟨0, 0⟩, ⟨0, 0⟩⟩

/-- A grid with zero mass but positive gravity and thrust. -/
def zeroMassThrustGrid : GridSpecifications := ⟨0, 981/100, ⟨1, 0⟩, ⟨0, 0⟩, ⟨0, 0⟩⟩

/-! ### Claims -/

/-- C1: for every configuration (thruster counts are non-negative integers by
the data model), the per-type thrust of each propulsion type equals
small_count times the force table's small entry plus large_count times its
large entry, and totalThrust is the sum of the three per-type values —
independent of evaluation order (also equal to the sum taken in the reverse
grouping). -/
theorem claim1_thrust_by_type_and_total (s : GridSpecifications) :
    s.calculate_thrust_by_type =
      ⟨(s.atmospheric_thrusters.small : ℚ) * 82000 + (s.atmospheric_thrusters.large : ℚ) * 408000,
       (s.ion_thrusters.small : ℚ) * 14400 + (s.ion_thrusters.large : ℚ) * 172800,
       (s.hydrogen_thrusters.small : ℚ) * 98400 + (s.hydrogen_thrusters.large : ℚ) * 478800⟩
    ∧ s.calculate_total_thrust =
        s.calculate_thrust_by_type.atmospheric + s.calculate_thrust_by_type.ion
          + s.calculate_thrust_by_type.hydrogen
    ∧ s.calculate_total_thrust =
        s.calculate_thrust_by_type.hydrogen
          + (s.calculate_thrust_by_type.ion + s.calculate_thrust_by_type.atmospheric) := by
  refine ⟨?_, rfl, ?_⟩
  · unfold GridSpecifications.calculate_thrust_by_type ThrusterCount.calculate_thrust THRUSTER_SPECS
    norm_num
  · unfold GridSpecifications.calculate_total_thrust
    ring

/-- C2: with gravity > 0, liftCapacity returns
(totalThrust - mass*gravity) / gravity; with gravity = 0 the division raises
`ZeroDivisionError`, which propagates to the caller (`none`), so no value at
all — in particular not 0 — is returned. -/
theorem claim2_lift_capacity (s : GridSpecifications) :
    (0 < s.gravity →
      s.calculate_lift_capacity =
        some ((s.calculate_total_thrust - s.mass * s.gravity) / s.gravity))
    ∧ (s.gravity = 0 → s.calculate_lift_capacity = none) := by
  constructor
  · intro h
    simp [GridSpecifications.calculate_lift_capacity, ne_of_gt h]
  · intro h
    simp [GridSpecifications.calculate_lift_capacity, h]

/-- Witness for C2 at the spec scenario (gravity 9.81, where the lift capacity
evaluates to 15419000/981 ≈ 15717.6 kg) and at a zero-gravity grid. -/
theorem claim2_witness :
    (0 < sampleGrid.gravity
      ∧ sampleGrid.calculate_lift_capacity = some (15419000/981))
    ∧ (zeroGravityGrid.gravity = 0 ∧ zeroGravityGrid.calculate_lift_capacity = none) := by
  refine ⟨⟨?_, ?_⟩, rfl, ?_⟩
  · norm_num [sampleGrid]
  · have h := (claim2_lift_capacity sampleGrid).1 (by norm_num [sampleGrid])
    rw [h]
    norm_num [sampleGrid, GridSpecifications.calculate_total_thrust,
      GridSpecifications.calculate_thrust_by_type, ThrusterCount.calculate_thrust,
      THRUSTER_SPECS]
  · exact (claim2_lift_capacity zeroGravityGrid).2 rfl

/-- C10: constructing a GridSpecifications with any thruster-count field
omitted (or None) yields a zero ThrusterCount for that field, omitting
gravity yields 9.81, explicitly given fields are kept unchanged, and on the
all-defaults value the derived thrust metrics are defined (the thruster
fields are present, so the per-type and total thrust computations evaluate,
to 0). -/
theorem claim10_post_init_defaults (m g : ℚ) (a i h : ThrusterCount) :
    GridSpecifications.make m = ⟨m, 981/100, ⟨0, 0⟩, ⟨0, 0⟩, ⟨0, 0⟩⟩
    ∧ GridSpecifications.make m g (some a) (some i) (some h) = ⟨m, g, a, i, h⟩
    ∧ GridSpecifications.make m g none (some i) none = ⟨m, g, ⟨0, 0⟩, i, ⟨0, 0⟩⟩
    ∧ (GridSpecifications.make m).calculate_thrust_by_type = ⟨0, 0, 0⟩
    ∧ (GridSpecifications.make m).calculate_total_thrust = 0 := by
  refine ⟨rfl, rfl, rfl, ?_, ?_⟩ <;>
    norm_num [GridSpecifications.make, GridSpecifications.calculate_total_thrust,
      GridSpecifications.calculate_thrust_by_type, ThrusterCount.calculate_thrust,
      THRUSTER_SPECS]

/-- C8: the thrust-balance verdict returns the no-thrusters string when all
three percentages are 0, otherwise the heavy-focus string of the first type
whose share exceeds 60% in the fixed order atmospheric, ion, hydrogen,
otherwise the balanced string; in particular 70/20/10 is atmospheric-heavy,
0/0/0 is no-thrusters and 34/33/33 is balanced. -/
theorem claim8_thrust_balance_verdict (a i h : ℚ) :
    analyze_thrust_balance a i h =
      (if a = 0 ∧ i = 0 ∧ h = 0 then "No thrusters configured"
       else if 60 < a then
         "Heavy atmospheric focus - consider diversifying for space operations"
       else if 60 < i then "Heavy ion focus - may struggle in atmosphere"
       else if 60 < h then "Heavy hydrogen focus - check fuel efficiency"
       else "Balanced thrust distribution")
    ∧ analyze_thrust_balance 70 20 10 =
        "Heavy atmospheric focus - consider diversifying for space operations"
    ∧ analyze_thrust_balance 0 0 0 = "No thrusters configured"
    ∧ analyze_thrust_balance 34 33 33 = "Balanced thrust distribution" := by
  refine ⟨rfl, ?_, ?_, ?_⟩ <;> norm_num [analyze_thrust_balance]

/-- C5 (the claim is right, the code has a slip): at mass 0 with positive
gravity and thrust, the thrust-to-weight expression of `analyze_grid`
(src/ai_assistant.py line 26) returns 0 by convention, but the CSV export
(src/utils.py line 157) divides `total_thrust` by `mass * gravity = 0` with
no guard and raises `ZeroDivisionError` (`none`) instead of producing 0. -/
theorem claim5_twr_zero_mass_convention :
    zeroMassThrustGrid.mass = 0 ∧ 0 < zeroMassThrustGrid.gravity
    ∧ analyze_grid_twr zeroMassThrustGrid = some 0
    ∧ export_csv_twr zeroMassThrustGrid = none := by
  refine ⟨rfl, ?_, ?_, ?_⟩ <;>
    norm_num [zeroMassThrustGrid, analyze_grid_twr, export_csv_twr]

/-- The efficiency formula exactly as the specification states it for the
non-degenerate case: base = clamp(twr*20, 0, 100) with
twr = totalThrust/(mass*gravity), idealShare = totalThrust/3,
penalty = (sum over the three per-type thrust values of |value - idealShare|)
/ totalThrust * 20, result = clamp(base - penalty, 0, 100). -/
def claimed_efficiency_formula (s : GridSpecifications) : ℚ :=
  let total := s.calculate_total_thrust
  let twr := total / (s.mass * s.gravity)
  let base := min 100 (max 0 (twr * 20))
  let idealShare := total / 3
  let penalty :=
    (|s.calculate_thrust_by_type.atmospheric - idealShare|
      + |s.calculate_thrust_by_type.ion - idealShare|
      + |s.calculate_thrust_by_type.hydrogen - idealShare|) / total * 20
  max 0 (min 100 (base - penalty))

/-- On the live (non-degenerate) path the code's efficiency score is exactly
the specification's formula. -/
lemma efficiency_score_pos_case (s : GridSpecifications)
    (ht : 0 < s.calculate_total_thrust) (hm : s.mass ≠ 0)
    (hmg : s.mass * s.gravity ≠ 0) :
    calculate_efficiency_score s = some (claimed_efficiency_formula s) := by
  unfold calculate_efficiency_score claimed_efficiency_formula
  simp [ne_of_gt ht, hm, hmg, ht]

/-- C3 counterexample: at mass 1, gravity 0 and one small atmospheric
thruster (total thrust 82000 > 0) the score computation divides by
mass*gravity = 0 and raises `ZeroDivisionError` (`none`): it does not return
any value, in particular none in [0,100], although mass and gravity are
non-negative. -/
theorem claim3_counterexample :
    0 ≤ zeroGravityThrustGrid.mass ∧ 0 ≤ zeroGravityThrustGrid.gravity
    ∧ calculate_efficiency_score zeroGravityThrustGrid = none := by
  refine ⟨?_, ?_, ?_⟩ <;>
    norm_num [zeroGravityThrustGrid, calculate_efficiency_score,
      GridSpecifications.calculate_total_thrust,
      GridSpecifications.calculate_thrust_by_type, ThrusterCount.calculate_thrust,
      THRUSTER_SPECS]

/-- C3 amended: when total thrust is 0 or mass is 0 the score is exactly 0
(for any gravity); otherwise, provided gravity is positive, the score is some
value in [0,100].  (As stated the claim fails: with non-negative gravity = 0,
positive mass and positive thrust the code raises instead of returning.) -/
theorem claim3_efficiency_score_range (s : GridSpecifications) :
    (s.calculate_total_thrust = 0 ∨ s.mass = 0 →
      calculate_efficiency_score s = some 0)
    ∧ (0 < s.gravity →
      ∃ q, calculate_efficiency_score s = some q ∧ 0 ≤ q ∧ q ≤ 100) := by
  constructor
  · intro h
    simp [calculate_efficiency_score, h]
  · intro hg
    by_cases h0 : s.calculate_total_thrust = 0 ∨ s.mass = 0
    · exact ⟨0, by simp [calculate_efficiency_score, h0], le_refl 0, by norm_num⟩
    · push_neg at h0
      have ht : 0 < s.calculate_total_thrust :=
        lt_of_le_of_ne s.calculate_total_thrust_nonneg (Ne.symm h0.1)
      have hmg : s.mass * s.gravity ≠ 0 := mul_ne_zero h0.2 (ne_of_gt hg)
      refine ⟨claimed_efficiency_formula s,
        efficiency_score_pos_case s ht h0.2 hmg, ?_, ?_⟩
      · exact le_max_left 0 _
      · exact max_le (by norm_num) (min_le_left 100 _)

/-- Witness for C3 at the all-zero grid (score exactly 0) and the spec
scenario grid (score 220/3, inside [0,100]). -/
theorem claim3_witness :
    calculate_efficiency_score allZeroGrid = some 0
    ∧ 0 < sampleGrid.gravity
    ∧ calculate_efficiency_score sampleGrid = some (220/3)
    ∧ (0:ℚ) ≤ 220/3 ∧ (220/3:ℚ) ≤ 100 := by
  refine ⟨(claim3_efficiency_score_range allZeroGrid).1 (Or.inr rfl),
    ?_, ?_, by norm_num, by norm_num⟩
  · norm_num [sampleGrid]
  · obtain ⟨q, hq, -, -⟩ :=
      (claim3_efficiency_score_range sampleGrid).2 (by norm_num [sampleGrid])
    norm_num [sampleGrid, calculate_efficiency_score,
      GridSpecifications.calculate_total_thrust,
      GridSpecifications.calculate_thrust_by_type, ThrusterCount.calculate_thrust,
      THRUSTER_SPECS, abs_of_pos, abs_of_neg]

/-- C6: for total thrust > 0, mass > 0 and gravity > 0, the code's
efficiencyScore equals the specification's closed formula
clamp(base - penalty, 0, 100) with base = clamp(twr*20, 0, 100),
twr = totalThrust/(mass*gravity), idealShare = totalThrust/3 and
penalty = (sum of |per-type thrust - idealShare|)/totalThrust*20. -/
theorem claim6_efficiency_score_formula (s : GridSpecifications)
    (ht : 0 < s.calculate_total_thrust) (hm : 0 < s.mass) (hg : 0 < s.gravity) :
    calculate_efficiency_score s = some (claimed_efficiency_formula s) :=
  efficiency_score_pos_case s ht (ne_of_gt hm) (ne_of_gt (mul_pos hm hg))

/-- Witness for C6 at the spec scenario grid, where the formula evaluates to
220/3. -/
theorem claim6_witness :
    0 < sampleGrid.calculate_total_thrust ∧ 0 < sampleGrid.mass
    ∧ 0 < sampleGrid.gravity
    ∧ calculate_efficiency_score sampleGrid = some (claimed_efficiency_formula sampleGrid)
    ∧ claimed_efficiency_formula sampleGrid = 220/3 := by
  have h1 : 0 < sampleGrid.calculate_total_thrust := by
    norm_num [sampleGrid, GridSpecifications.calculate_total_thrust,
      GridSpecifications.calculate_thrust_by_type, ThrusterCount.calculate_thrust,
      THRUSTER_SPECS]
  have h2 : 0 < sampleGrid.mass := by norm_num [sampleGrid]
  have h3 : 0 < sampleGrid.gravity := by norm_num [sampleGrid]
  refine ⟨h1, h2, h3, claim6_efficiency_score_formula sampleGrid h1 h2 h3, ?_⟩
  norm_num [sampleGrid, claimed_efficiency_formula,
    GridSpecifications.calculate_total_thrust,
    GridSpecifications.calculate_thrust_by_type, ThrusterCount.calculate_thrust,
    THRUSTER_SPECS]
  rw [show |(328000:ℚ)/3| = 328000/3 from abs_of_pos (by norm_num),
    show |(164000:ℚ)/3| = 164000/3 from abs_of_pos (by norm_num)]
  norm_num [min_def, max_def]

/-- C4 counterexample: with gravity 0 the lift-capacity computation at the
top of `analyze_grid` — executed before the try/except block — raises
`ZeroDivisionError`, which escapes the function, whatever the external call
would have returned: the boundary does raise for this input configuration. -/
theorem claim4_counterexample :
    analyze_grid zeroGravityGrid (.ok "some analysis text") =
      .error "ZeroDivisionError: float division by zero"
    ∧ analyze_grid zeroGravityGrid (.error "network down") =
        .error "ZeroDivisionError: float division by zero" := by
  constructor <;> rfl

/-- C4 amended: for every configuration with nonzero gravity (so that the
pre-try lift/twr computations cannot raise), `analyze_grid` never raises:
on external-call failure it returns all three fields populated with the
failure placeholders embedding the error description, and on success it maps
the first three blank-line-separated segments of the response positionally to
the three fields, substituting the fixed placeholders for missing segments. -/
theorem claim4_analyze_grid_boundary (s : GridSpecifications)
    (hg : s.gravity ≠ 0) :
    (∀ e, analyze_grid s (.error e) =
      .ok ⟨"Error analyzing efficiency: " ++ e, "Analysis unavailable",
        "Analysis unavailable"⟩)
    ∧ (∀ text, analyze_grid s (.ok text) =
      .ok ⟨(text.splitOn "\n\n").getD 0 "Analysis unavailable",
        (text.splitOn "\n\n").getD 1 "No optimization suggestions",
        (text.splitOn "\n\n").getD 2 "No use case analysis"⟩) := by
  have hlift : s.calculate_lift_capacity =
      some ((s.calculate_total_thrust - s.mass * s.gravity) / s.gravity) := by
    simp [GridSpecifications.calculate_lift_capacity, hg]
  by_cases hm : 0 < s.mass
  · have hmg : s.mass * s.gravity ≠ 0 := mul_ne_zero (ne_of_gt hm) hg
    constructor <;> intro x <;> simp [analyze_grid, hlift, analyze_grid_twr, hm, hmg]
  · constructor <;> intro x <;> simp [analyze_grid, hlift, analyze_grid_twr, hm]

/-- Witness for C4 at the spec scenario grid (gravity 9.81): a failing call
yields the three placeholder fields, a successful three-paragraph response is
mapped positionally. -/
theorem claim4_witness :
    sampleGrid.gravity ≠ 0
    ∧ analyze_grid sampleGrid (.error "network down") =
        .ok ⟨"Error analyzing efficiency: " ++ "network down",
          "Analysis unavailable", "Analysis unavailable"⟩
    ∧ analyze_grid sampleGrid (.ok "first\n\nsecond\n\nthird") =
        .ok ⟨("first\n\nsecond\n\nthird".splitOn "\n\n").getD 0 "Analysis unavailable",
          ("first\n\nsecond\n\nthird".splitOn "\n\n").getD 1 "No optimization suggestions",
          ("first\n\nsecond\n\nthird".splitOn "\n\n").getD 2 "No use case analysis"⟩ := by
  have hg : sampleGrid.gravity ≠ 0 := by norm_num [sampleGrid]
  exact ⟨hg, (claim4_analyze_grid_boundary sampleGrid hg).1 "network down",
    (claim4_analyze_grid_boundary sampleGrid hg).2 "first\n\nsecond\n\nthird"⟩

/-- C7 counterexample: at mass 1, gravity 0 and one small atmospheric
thruster, total thrust is 82000 ≠ 0 but the twr computation divides by
mass*gravity = 0 and raises `ZeroDivisionError` (`none`): no advisory
sequence at all is returned, contrary to the claim for "every
configuration". -/
theorem claim7_counterexample :
    zeroGravityThrustGrid.calculate_total_thrust ≠ 0
    ∧ generate_suggested_changes zeroGravityThrustGrid = none := by
  constructor <;>
    norm_num [zeroGravityThrustGrid, generate_suggested_changes, analyze_grid_twr,
      GridSpecifications.calculate_total_thrust,
      GridSpecifications.calculate_thrust_by_type, ThrusterCount.calculate_thrust,
      THRUSTER_SPECS]

/-- C7 amended: for every configuration with total thrust 0 — any mass and
any gravity, since the zero-thrust return precedes the twr division — the
single fixed message is returned; on the nonzero-thrust branch, for
non-negative mass and provided mass = 0 or gravity > 0 (otherwise the twr
division raises), the sequence appends, in order, at most one twr message
(twr = 0, else twr < 1.5, else twr > 4, first match), then the atmospheric
message when atmospheric thrust < mass*gravity, then the space message when
ion + hydrogen thrust < mass*gravity (the code's extra `mass > 0` guard on
the last two rules is redundant for non-negative thrusts). -/
theorem claim7_suggested_changes (s : GridSpecifications) :
    (s.calculate_total_thrust = 0 →
      generate_suggested_changes s = some ["Add thrusters to begin analysis"])
    ∧ (0 ≤ s.mass → s.mass = 0 ∨ 0 < s.gravity → s.calculate_total_thrust ≠ 0 →
      generate_suggested_changes s = some (
        (let twr := if 0 < s.mass then
            s.calculate_total_thrust / (s.mass * s.gravity) else 0
         if twr = 0 then
           ["Add mass and thrusters to calculate thrust-to-weight ratio"]
         else if twr < 3/2 then ["Add more thrusters to improve lift capacity"]
         else if twr > 4 then ["Consider reducing thrust for better efficiency"]
         else [])
        ++ (if s.calculate_thrust_by_type.atmospheric < s.mass * s.gravity then
              ["Increase atmospheric thrusters for better planet performance"]
            else [])
        ++ (if s.calculate_thrust_by_type.ion + s.calculate_thrust_by_type.hydrogen
              < s.mass * s.gravity then
              ["Increase ion/hydrogen thrusters for space operations"]
            else []))) := by
  constructor
  · intro h
    simp [generate_suggested_changes, h]
  · intro hm hok h
    by_cases hmp : 0 < s.mass
    · have hgp : 0 < s.gravity := by
        rcases hok with h0 | hg
        · rw [h0] at hmp
          exact absurd hmp (lt_irrefl 0)
        · exact hg
      have hmg : s.mass * s.gravity ≠ 0 := ne_of_gt (mul_pos hmp hgp)
      simp [generate_suggested_changes, analyze_grid_twr, h, hmp, hmg]
    · have hm0 : s.mass = 0 := le_antisymm (not_lt.1 hmp) hm
      have ha : 0 ≤ s.calculate_thrust_by_type.atmospheric :=
        s.atmospheric_thrusters.calculate_thrust_nonneg .atmospheric
      have hih : 0 ≤ s.calculate_thrust_by_type.ion
          + s.calculate_thrust_by_type.hydrogen :=
        add_nonneg (s.ion_thrusters.calculate_thrust_nonneg .ion)
          (s.hydrogen_thrusters.calculate_thrust_nonneg .hydrogen)
      simp [generate_suggested_changes, analyze_grid_twr, h, hmp, hm0,
        not_lt.2 ha, not_lt.2 hih]

/-- Witness for C7: the zero-thrust branch at a grid with positive mass and
zero gravity (the guard returns before the twr division, so no hypothesis is
needed), and the nonzero-thrust branch at the spec scenario grid, where
twr ≈ 16.72 > 4 and ion + hydrogen thrust 0 < 9810, so exactly the
reduce-thrust and space-capacity messages are produced, in that order. -/
theorem claim7_witness :
    (zeroGravityGrid.calculate_total_thrust = 0
      ∧ generate_suggested_changes zeroGravityGrid =
          some ["Add thrusters to begin analysis"])
    ∧ ((0:ℚ) ≤ sampleGrid.mass
      ∧ (sampleGrid.mass = 0 ∨ 0 < sampleGrid.gravity)
      ∧ sampleGrid.calculate_total_thrust ≠ 0
      ∧ generate_suggested_changes sampleGrid =
          some ["Consider reducing thrust for better efficiency",
            "Increase ion/hydrogen thrusters for space operations"]) := by
  have h0 : zeroGravityGrid.calculate_total_thrust = 0 := by
    norm_num [zeroGravityGrid, GridSpecifications.calculate_total_thrust,
      GridSpecifications.calculate_thrust_by_type, ThrusterCount.calculate_thrust,
      THRUSTER_SPECS]
  have hm : (0:ℚ) ≤ sampleGrid.mass := by norm_num [sampleGrid]
  have hok : sampleGrid.mass = 0 ∨ 0 < sampleGrid.gravity :=
    Or.inr (by norm_num [sampleGrid])
  have ht : sampleGrid.calculate_total_thrust ≠ 0 := by
    norm_num [sampleGrid, GridSpecifications.calculate_total_thrust,
      GridSpecifications.calculate_thrust_by_type, ThrusterCount.calculate_thrust,
      THRUSTER_SPECS]
  refine ⟨⟨h0, (claim7_suggested_changes zeroGravityGrid).1 h0⟩, hm, hok, ht, ?_⟩
  have h := (claim7_suggested_changes sampleGrid).2 hm hok ht
  rw [h]
  norm_num [sampleGrid, GridSpecifications.calculate_total_thrust,
    GridSpecifications.calculate_thrust_by_type, ThrusterCount.calculate_thrust,
    THRUSTER_SPECS]

/-- Round trip for one thruster-count dictionary. -/
lemma ThrusterCount.from_dict_to_dict (c : ThrusterCount) :
    ThrusterCount.from_dict c.to_dict = some c := by
  rcases c with ⟨cs, cl⟩
  simp [ThrusterCount.to_dict, ThrusterCount.from_dict, Json.get, Json.asCount,
    List.lookup]

/-- C9: serializing a GridSpecifications to its dictionary/JSON form and
deserializing it back yields the identical value field-by-field, and the same
round trip holds through Preset.save followed by Preset.load. -/
theorem claim9_serialization_roundtrip (s : GridSpecifications) (p : Preset) :
    GridSpecifications.from_dict s.to_dict = some s
    ∧ Preset.load p.save = some p := by
  have hs : ∀ t : GridSpecifications,
      GridSpecifications.from_dict t.to_dict = some t := by
    intro t
    rcases t with ⟨m, g, a, i, h⟩
    simp [GridSpecifications.to_dict, GridSpecifications.from_dict, Json.get,
      Json.asRat, List.lookup, ThrusterCount.from_dict_to_dict]
  refine ⟨hs s, ?_⟩
  rcases p with ⟨n, t⟩
  simp [Preset.save, Preset.load, Json.get, Json.asStr, List.lookup, hs]
